import Mathlib

/-!
# Verification of `horoscope_video_bot.py`

Shallow embedding of the segment-timing / timeline-assembly engine and the
resumable-upload loop of `src/horoscope_video_bot.py`, together with proofs
about the claims of the specification.

Durations and timestamps (Python floats in the source) are modelled as exact
rationals `ℚ`; the external collaborators (HTTP fetch, text-to-speech,
filesystem, moviepy, YouTube API) are modelled as oracle outcomes recorded in
an `Env` structure, while all control flow and arithmetic is translated
directly from the source.
-/

namespace HoroscopeBot

/-- Line 37-38: the fixed ordered list of the 12 zodiac signs. -/
def ZODIAC_SIGNS : List String :=
  ["aries", "taurus", "gemini", "cancer", "leo", "virgo",
   "libra", "scorpio", "sagittarius", "capricorn", "aquarius", "pisces"]

/-- `charsStartWith needle hay`: `needle` is a prefix of `hay`
(character-list version of Python string prefix testing, used to implement
the `in` substring operator below). -/
def charsStartWith : List Char → List Char → Bool
  | [], _ => true
  | _ :: _, [] => false
  | a :: as, b :: bs => a == b && charsStartWith as bs

/-- `charsContain needle hay`: `needle` occurs as a contiguous substring of
`hay` (Python's `needle in hay` on strings, over character lists). -/
def charsContain (needle : List Char) : List Char → Bool
  | [] => needle.isEmpty
  | c :: rest => charsStartWith needle (c :: rest) || charsContain needle rest

/-- Python's substring test `needle in hay`. -/
def strIn (needle hay : String) : Bool :=
  charsContain needle.data hay.data

/-- Python `str.capitalize()`: first character uppercased, the rest
lowercased (line 88, 123, 315 use `sign.capitalize()`). -/
def capitalize (s : String) : String :=
  match s.data with
  | [] => ""
  | c :: rest => String.mk (c.toUpper :: rest.map Char.toLower)

/-- The apology text returned by `fetch_horoscope` on a request exception
(line 81): `f"Apologies, {sign}. We couldn't retrieve your horoscope at this
moment."`. -/
def apologyText (sign : String) : String :=
  "Apologies, " ++ sign ++ ". We couldn't retrieve your horoscope at this moment."

/-- Outcome of the HTTP request in `fetch_horoscope` (lines 74-76), as seen
by the function: either the request raised a `requests` exception (connection
error, HTTP error status, timeout, JSON decode failure — all subclasses of
`RequestException`), or it produced a JSON object whose `description` field
is either a string or missing/None. -/
inductive FetchOutcome
  | requestError
  | response (description : Option String)
deriving DecidableEq

/-- Result of running a Python function: a returned value or a propagated
exception. -/
inductive PyResult (α : Type)
  | ok (value : α)
  | raised
deriving DecidableEq

/-- Lines 70-81, `fetch_horoscope(sign)`.

* On a `RequestException` the handler returns the fixed apology sentinel
  (line 81).
* On a successful response the progress log line 77 evaluates
  `data.get('description')[:50]`: when the `description` field is missing
  (or None), this slices `None` and raises an uncaught `TypeError`, so the
  default `"Could not fetch horoscope today."` of line 78 is never actually
  returned.
* When `description` is a string it is returned verbatim (line 78). -/
def fetch_horoscope (sign : String) (outcome : FetchOutcome) : PyResult String :=
  match outcome with
  | .requestError => .ok (apologyText sign)
  | .response none => .raised
  | .response (some description) => .ok description

/-- Line 264, the driver's per-topic skip test:
`if not raw_horoscope or "Could not fetch" in raw_horoscope or
"couldn't retrieve" in raw_horoscope`. -/
def fetchSkip (raw : String) : Bool :=
  raw == "" || strIn "Could not fetch" raw || strIn "couldn't retrieve" raw

/-- Line 88, `regenerate_text(text, sign)`. -/
def regenerate_text (text sign : String) : String :=
  "Hello " ++ capitalize sign ++ ", your horoscope for today: " ++ text ++
    " Have a wonderful day!"

/-- Which of the fallible steps inside `create_segment_video` succeed:
either the overlay composition of lines 116-148 runs to the end, or it
raises and the fallback of lines 153-158 succeeds, or the fallback raises
too (lines 159-161). -/
inductive BuildOutcome
  | overlayOk
  | overlayFailsFallbackOk
  | bothFail
deriving DecidableEq

/-- Lines 113-161, `create_segment_video`: the duration semantics of the
returned clip, with `audioDuration` the duration of `AudioFileClip(audio_path)`
and `segment_duration` the caller-passed planned duration.  The text, image
and sign-name parameters of the source affect only pixel content, never the
returned duration, and are omitted.

* Main path (lines 134-148): the audio clip is truncated to
  `segment_duration` when strictly longer (line 135-136), left alone when
  shorter (lines 137-140), and the final composite duration is set to the
  (possibly truncated) audio clip's duration (line 145).
* Overlay failure (lines 150-158): a fresh `AudioFileClip` is opened and an
  image-only composite takes exactly its duration.
* Fallback failure (lines 159-161): `None` is returned. -/
def create_segment_video (audioDuration segment_duration : ℚ)
    (outcome : BuildOutcome) : Option ℚ :=
  match outcome with
  | .overlayOk =>
      some (if audioDuration > segment_duration then segment_duration
            else audioDuration)
  | .overlayFailsFallbackOk => some audioDuration
  | .bothFail => none

/-- Python's format `f"{n:02d}"` for a nonnegative integer: zero-padded to
width two. -/
def pad2 (n : ℕ) : String :=
  if n < 10 then "0" ++ toString n else toString n

/-- Lines 313-315 of the driver:
`minutes = int(current_timestamp_seconds // 60)`,
`seconds = int(current_timestamp_seconds % 60)`,
`f"{minutes:02d}:{seconds:02d} {sign.capitalize()}"`.
For the nonnegative accumulated offsets arising in the run, Python's float
floor-division, `%` and `int(...)` all floor, so the two fields are
`⌊t / 60⌋` and `⌊t - 60 * ⌊t / 60⌋⌋`. -/
def chapterLabel (t : ℚ) (sign : String) : String :=
  pad2 (⌊t / 60⌋).toNat ++ ":" ++ pad2 (⌊t - 60 * (⌊t / 60⌋ : ℤ)⌋).toNat ++
    " " ++ capitalize sign

/-- The oracle outcomes of all external collaborators for one run: the HTTP
fetch result per sign, whether `text_to_speech_google` returns `True`
(lines 90-111), whether the per-sign image (line 283) and the default image
(line 293) exist, the duration of the synthesized audio file as measured by
`AudioFileClip` (line 301), which branch of `create_segment_video` succeeds,
whether `write_videofile` (line 335) succeeds, whether `get_youtube_service`
returns a service (line 358), and which credential environment variables are
set (lines 21-27), with `tokenDecodeOk` recording whether the base64 decode
of line 59 succeeds. -/
structure Env where
  fetch : String → FetchOutcome
  ttsOk : String → Bool
  signImage : String → Bool
  defaultImage : Bool
  audioDuration : String → ℚ
  build : String → BuildOutcome
  renderOk : Bool
  youtubeOk : Bool
  googleCreds : Bool
  ytSecret : Bool
  ytToken : Bool
  tokenDecodeOk : Bool

/-- Result of one iteration of the driver's per-sign loop body
(lines 261-318): the iteration `continue`s without a segment, appends a
segment of the given duration, or lets an exception propagate out of `main`. -/
inductive StepResult
  | skip
  | crash
  | seg (duration : ℚ)
deriving DecidableEq

/-- Lines 262-308, the per-sign body of the driver loop up to the segment
construction: fetch (line 263) with the skip test of line 264, text
regeneration (line 271, no effect on control flow), TTS with skip on failure
(lines 276-278), image lookup with default-image fallback and skip when both
are missing (lines 283-297), then `segment_duration = audio duration + 1.0`
(line 302) and the call to `create_segment_video` (line 308); a `None`
segment is reported as a failure and skipped (lines 317-318). -/
def processSign (env : Env) (sign : String) : StepResult :=
  match fetch_horoscope sign (env.fetch sign) with
  | .raised => .crash
  | .ok raw =>
      if fetchSkip raw then .skip
      else if !env.ttsOk sign then .skip
      else if !env.signImage sign && !env.defaultImage then .skip
      else
        match create_segment_video (env.audioDuration sign)
            (env.audioDuration sign + 1) (env.build sign) with
        | some dur => .seg dur
        | none => .skip

/-- The driver's loop accumulator (lines 257-259): the list of built
segments (we record the sign and the final clip duration), the chapter
description lines, and `current_timestamp_seconds`.  The `offsets` field is
ghost instrumentation recording the exact value of
`current_timestamp_seconds` read at line 313 for each appended chapter. -/
structure LoopState where
  segments : List (String × ℚ)
  chapters : List String
  offsets : List ℚ
  t : ℚ
deriving DecidableEq

/-- Lines 257-259: `all_video_segments = []`,
`youtube_description_parts = []`, `current_timestamp_seconds = 0`. -/
def initState : LoopState := ⟨[], [], [], 0⟩

/-- Lines 310-316: append the segment, append the chapter line computed from
the current accumulated offset, then
`current_timestamp_seconds += video_segment.duration` at full precision. -/
def pushSegment (st : LoopState) (sign : String) (dur : ℚ) : LoopState :=
  { segments := st.segments ++ [(sign, dur)]
    chapters := st.chapters ++ [chapterLabel st.t sign]
    offsets := st.offsets ++ [st.t]
    t := st.t + dur }

/-- The driver loop `for sign in ZODIAC_SIGNS:` (lines 261-318), folded over
the remaining signs; `none` models an exception propagating out of `main`. -/
def runSigns (env : Env) : List String → LoopState → Option LoopState
  | [], st => some st
  | sign :: rest, st =>
      match processSign env sign with
      | .crash => none
      | .skip => runSigns env rest st
      | .seg dur => runSigns env rest (pushSegment st sign dur)

/-- Which of the three temporary credential files exist on disk. -/
structure CredFiles where
  serviceAccount : Bool
  clientSecret : Bool
  tokenPickle : Bool
deriving DecidableEq

/-- Lines 42-64, `setup_credentials()`: each temporary file is written iff
its environment variable is set (for `token.pickle`, iff the base64 decode
of line 59 also succeeds); the run starts with none of the files present. -/
def setup_credentials (env : Env) : CredFiles :=
  { serviceAccount := env.googleCreds
    clientSecret := env.ytSecret
    tokenPickle := env.ytToken && env.tokenDecodeOk }

/-- Lines 372-377 of `main`: each temporary file is removed iff its
environment variable is set and the file exists. -/
def cleanup_credentials (env : Env) (files : CredFiles) : CredFiles :=
  { serviceAccount := if env.googleCreds && files.serviceAccount then false
                      else files.serviceAccount
    clientSecret := if env.ytSecret && files.clientSecret then false
                    else files.clientSecret
    tokenPickle := if env.ytToken && files.tokenPickle then false
                   else files.tokenPickle }

/-- How `main` terminated: an uncaught exception, the zero-segments early
return of line 326, the render-failure early return of line 346, or the
fall-through to the end of the function. -/
inductive ExitPath
  | crashed
  | emptyAbort
  | renderFailAbort
  | normal
deriving DecidableEq

/-- Observable outcome of one run of `main`: the assembled segments,
chapter lines and (ghost) chapter offsets; whether the render/write step
(line 335) and the upload call (line 365) were reached; the credential files
still on disk when the process ends; and the exit path taken. -/
structure RunResult where
  segments : List (String × ℚ)
  chapters : List String
  offsets : List ℚ
  renderAttempted : Bool
  uploadAttempted : Bool
  filesAtExit : CredFiles
  exitPath : ExitPath
deriving DecidableEq

/-- Lines 249-379, `main()`: credential setup, the per-sign loop, the
zero-segments early return (lines 324-326), the render/write attempt with
its early return on failure (lines 333-346), the upload stage (lines
358-369, attempted iff a YouTube service was obtained, the rendered file
existing on this path), and the credential cleanup of lines 372-377 — which
only the fall-through path reaches. -/
def runMain (env : Env) : RunResult :=
  let files := setup_credentials env
  match runSigns env ZODIAC_SIGNS initState with
  | none =>
      { segments := [], chapters := [], offsets := []
        renderAttempted := false, uploadAttempted := false
        filesAtExit := files, exitPath := .crashed }
  | some st =>
      if st.segments.isEmpty then
        { segments := st.segments, chapters := st.chapters
          offsets := st.offsets
          renderAttempted := false, uploadAttempted := false
          filesAtExit := files, exitPath := .emptyAbort }
      else if !env.renderOk then
        { segments := st.segments, chapters := st.chapters
          offsets := st.offsets
          renderAttempted := true, uploadAttempted := false
          filesAtExit := files, exitPath := .renderFailAbort }
      else
        { segments := st.segments, chapters := st.chapters
          offsets := st.offsets
          renderAttempted := true, uploadAttempted := env.youtubeOk
          filesAtExit := cleanup_credentials env files, exitPath := .normal }

/-- One result of `request.next_chunk()` in `upload_video_to_youtube`
(line 239): either a progress report (`status` non-None, `response` None)
with its progress fraction, or completion (`response` non-None) carrying the
assigned video id. -/
inductive ChunkResult
  | progress (fraction : ℚ)
  | complete (videoId : String)
deriving DecidableEq

/-- Lines 236-243, the resumable-upload loop
`while response is None: status, response = request.next_chunk()`, run
against a mock that answers the successive `next_chunk` calls with the given
list of results.  Returns the video id of line 243 together with the number
of `next_chunk` calls made; `none` models a mock exhausted before
completing (the loop would keep calling `next_chunk`). -/
def uploadLoop : List ChunkResult → Option (String × ℕ)
  | [] => none
  | .progress _ :: rest =>
      (uploadLoop rest).map (fun r => (r.1, r.2 + 1))
  | .complete videoId :: _ => some (videoId, 1)

/-- The per-sign outcomes that produce a segment, in driver-loop order:
the `(sign, duration)` pairs the run appends. -/
def includedOf (env : Env) (signs : List String) : List (String × ℚ) :=
  signs.filterMap (fun s =>
    match processSign env s with
    | .seg dur => some (s, dur)
    | _ => none)

/-- The chapter start offsets generated by durations `ds` starting from
accumulated time `t`: each segment's offset is read before its duration is
added. -/
def offsetList (t : ℚ) : List ℚ → List ℚ
  | [] => []
  | d :: ds => t :: offsetList (t + d) ds

/-! ## Helper lemmas -/

/-- Under the driver's calling convention `segment_duration = d + 1`
(line 302), any clip returned by `create_segment_video` has duration exactly
the audio duration. -/
theorem create_segment_video_duration (d : ℚ) (o : BuildOutcome) (dur : ℚ)
    (h : create_segment_video d (d + 1) o = some dur) : dur = d := by
  cases o with
  | overlayOk =>
      simp only [create_segment_video, Option.some.injEq] at h
      rw [if_neg (by linarith : ¬ d > d + 1)] at h
      exact h.symm
  | overlayFailsFallbackOk =>
      simp only [create_segment_video, Option.some.injEq] at h
      exact h.symm
  | bothFail => simp [create_segment_video] at h

/-- A segment appended by the driver's loop body has duration exactly the
duration of that sign's synthesized audio. -/
theorem processSign_seg_duration (env : Env) (sign : String) (dur : ℚ)
    (h : processSign env sign = .seg dur) : dur = env.audioDuration sign := by
  unfold processSign at h
  split at h
  · exact StepResult.noConfusion h
  · split at h
    · exact StepResult.noConfusion h
    · split at h
      · exact StepResult.noConfusion h
      · split at h
        · exact StepResult.noConfusion h
        · split at h
          · rename_i dur' heq
            cases h
            exact create_segment_video_duration _ _ _ heq
          · exact StepResult.noConfusion h

/-- Substring containment is preserved by extending the haystack on the
left. -/
theorem charsContain_append_left (needle l₂ : List Char) :
    ∀ l₁ : List Char, charsContain needle l₂ = true →
      charsContain needle (l₁ ++ l₂) = true := by
  intro l₁ h
  induction l₁ with
  | nil => simpa using h
  | cons c l₁ ih =>
      simp only [List.cons_append, charsContain, Bool.or_eq_true]
      exact Or.inr ih

/-- The apology sentinel produced on a fetch failure always triggers the
driver's skip test of line 264, whatever the sign. -/
theorem fetchSkip_apology (sign : String) :
    fetchSkip (apologyText sign) = true := by
  have htail : charsContain ("couldn't retrieve").data
      (". We couldn't retrieve your horoscope at this moment.").data = true := by
    decide
  have h1 : strIn "couldn't retrieve" (apologyText sign) = true := by
    unfold strIn apologyText
    rw [String.data_append, String.data_append]
    exact charsContain_append_left _ _ _ htail
  simp [fetchSkip, h1]

theorem offsetList_length (t : ℚ) (ds : List ℚ) :
    (offsetList t ds).length = ds.length := by
  induction ds generalizing t with
  | nil => rfl
  | cons d ds ih => simp [offsetList, ih]

theorem offsetList_getD (ds : List ℚ) (t : ℚ) (i : ℕ) (hi : i < ds.length) :
    (offsetList t ds).getD i 0 = t + (ds.take i).sum := by
  induction ds generalizing t i with
  | nil => simp at hi
  | cons d ds ih =>
      cases i with
      | zero => simp [offsetList]
      | succ j =>
          simp only [offsetList, List.getD_cons_succ, List.take_succ_cons,
            List.sum_cons]
          rw [ih (t + d) j (by simpa using hi)]
          ring

/-- Invariant of the driver loop: running the remaining signs appends
exactly the included segments in sign order, appends one chapter line per
included segment, records as chapter offsets the running partial sums
starting from the incoming accumulator, and advances the accumulator by the
total included duration. -/
theorem runSigns_spec (env : Env) :
    ∀ (signs : List String) (st st' : LoopState),
      runSigns env signs st = some st' →
      st'.segments = st.segments ++ includedOf env signs ∧
      st'.chapters.length = st.chapters.length + (includedOf env signs).length ∧
      st'.offsets = st.offsets ++
        offsetList st.t ((includedOf env signs).map Prod.snd) ∧
      st'.t = st.t + ((includedOf env signs).map Prod.snd).sum := by
  intro signs
  induction signs with
  | nil =>
      intro st st' h
      simp only [runSigns, Option.some.injEq] at h
      subst h
      simp [includedOf, offsetList]
  | cons sign rest ih =>
      intro st st' h
      simp only [runSigns] at h
      cases hp : processSign env sign with
      | crash => rw [hp] at h; simp at h
      | skip =>
          rw [hp] at h
          have := ih st st' h
          simpa [includedOf, List.filterMap_cons, hp] using this
      | seg dur =>
          rw [hp] at h
          have hinc : includedOf env (sign :: rest) =
              (sign, dur) :: includedOf env rest := by
            simp [includedOf, List.filterMap_cons, hp]
          obtain ⟨h1, h2, h3, h4⟩ := ih (pushSegment st sign dur) st' h
          refine ⟨?_, ?_, ?_, ?_⟩
          · rw [h1, hinc]; simp [pushSegment]
          · rw [h2, hinc]; simp [pushSegment]; omega
          · rw [h3, hinc]; simp [pushSegment, offsetList]
          · rw [h4, hinc]; simp [pushSegment]; ring

/-- If no sign's processing raises, the driver loop completes. -/
theorem runSigns_total (env : Env) :
    ∀ (signs : List String) (st : LoopState),
      (∀ s ∈ signs, processSign env s ≠ .crash) →
      ∃ st', runSigns env signs st = some st' := by
  intro signs
  induction signs with
  | nil => intro st _; exact ⟨st, rfl⟩
  | cons sign rest ih =>
      intro st hnc
      simp only [runSigns]
      cases hp : processSign env sign with
      | crash => exact absurd hp (hnc sign (by simp))
      | skip => exact ih st (fun s hs => hnc s (by simp [hs]))
      | seg dur =>
          exact ih (pushSegment st sign dur) (fun s hs => hnc s (by simp [hs]))

/-- If every sign is skipped, the loop returns its incoming state. -/
theorem runSigns_all_skip (env : Env) :
    ∀ (signs : List String) (st : LoopState),
      (∀ s ∈ signs, processSign env s = .skip) →
      runSigns env signs st = some st := by
  intro signs
  induction signs with
  | nil => intro st _; rfl
  | cons sign rest ih =>
      intro st hsk
      simp only [runSigns, hsk sign (by simp)]
      exact ih st (fun s hs => hsk s (by simp [hs]))

/-- On any non-crashing run, the three timeline components of the result are
the ones accumulated by the loop. -/
theorem runMain_fields (env : Env) (st : LoopState)
    (h : runSigns env ZODIAC_SIGNS initState = some st) :
    (runMain env).segments = st.segments ∧
    (runMain env).chapters = st.chapters ∧
    (runMain env).offsets = st.offsets := by
  unfold runMain
  rw [h]
  by_cases h1 : st.segments.isEmpty <;> by_cases h2 : env.renderOk <;>
    simp [h1, h2]

/-- The entries of `includedOf` are exactly the signs whose processing
produced a segment, paired with that segment's duration. -/
theorem includedOf_mem (env : Env) (signs : List String) (p : String × ℚ)
    (h : p ∈ includedOf env signs) : processSign env p.1 = .seg p.2 := by
  simp only [includedOf, List.mem_filterMap] at h
  obtain ⟨s, _, hf⟩ := h
  cases hp : processSign env s <;> rw [hp] at hf
  · simp at hf
  · simp at hf
  · rename_i d
    simp only [Option.some.injEq] at hf
    subst hf
    simpa using hp

/-- All included durations are nonnegative when all measured audio
durations are. -/
theorem includedOf_dur_nonneg (env : Env)
    (hd : ∀ s, 0 ≤ env.audioDuration s) (signs : List String) :
    ∀ x ∈ (includedOf env signs).map Prod.snd, 0 ≤ x := by
  intro x hx
  simp only [List.mem_map] at hx
  obtain ⟨p, hp, rfl⟩ := hx
  have := includedOf_mem env signs p hp
  rw [processSign_seg_duration env p.1 p.2 this]
  exact hd p.1

/-- The signs of the included segments are the topic list filtered by
"produced a segment", hence a sublist of the fixed topic list. -/
theorem includedOf_map_fst (env : Env) (signs : List String) :
    (includedOf env signs).map Prod.fst =
      signs.filter (fun s =>
        match processSign env s with
        | .seg _ => true
        | _ => false) := by
  induction signs with
  | nil => rfl
  | cons s rest ih =>
      simp only [includedOf, List.filterMap_cons, List.filter_cons] at ih ⊢
      cases hp : processSign env s <;> simp [hp, ih]

/-! ## Concrete environments for witnesses and counterexamples -/

/-- A run in which every fetch fails, with all three credential environment
variables set. -/
def envAllSkip : Env :=
  { fetch := fun _ => .requestError
    ttsOk := fun _ => true
    signImage := fun _ => true
    defaultImage := true
    audioDuration := fun _ => 10
    build := fun _ => .overlayOk
    renderOk := true
    youtubeOk := true
    googleCreds := true
    ytSecret := true
    ytToken := true
    tokenDecodeOk := true }

/-- A run in which exactly two topics succeed (audio durations 10 and 8),
the render and upload succeed, and all credential environment variables are
set. -/
def envTwoSegs : Env :=
  { envAllSkip with
    fetch := fun s =>
      if s == "aries" || s == "gemini" then
        .response (some "The stars align for a calm day")
      else .requestError
    audioDuration := fun s => if s == "aries" then 10 else 8 }

/-- Same two-segment run, but writing the final video file fails. -/
def envRenderFail : Env := { envTwoSegs with renderOk := false }

/-- Same two-segment run, but overlay composition fails for every topic, so
segments are built by the image+audio fallback. -/
def envFallback : Env :=
  { envTwoSegs with build := fun _ => .overlayFailsFallbackOk }

/-! ## Claim theorems -/

/-- Claim C1, counterexample: for audio duration 2 and the driver-computed
`segment_duration = 2 + 1.0`, the built segment's final duration is 2, not
`2 + 1.0` — `create_segment_video` overrides the planned duration with the
audio clip's own duration (line 145), so the claimed invariant
`duration == audio duration + pad` fails. -/
theorem horoscope_C1_cex :
    create_segment_video 2 (2 + 1) BuildOutcome.overlayOk = some 2 ∧
    create_segment_video 2 (2 + 1) BuildOutcome.overlayOk ≠ some (2 + 1) := by
  constructor
  · simp only [create_segment_video, Option.some.injEq]
    rw [if_neg (by norm_num : ¬ (2 : ℚ) > 2 + 1)]
  · simp only [create_segment_video, ne_eq, Option.some.injEq]
    rw [if_neg (by norm_num : ¬ (2 : ℚ) > 2 + 1)]
    norm_num

/-- Claim C1, amended: for every audio duration `d`, a segment built with
the driver's `segment_duration = d + 1.0` has final duration exactly `d`
(on the overlay path and on the fallback path alike); in the driver, every
appended segment's duration equals that sign's measured audio duration. -/
theorem horoscope_C1_amended (d : ℚ) :
    create_segment_video d (d + 1) BuildOutcome.overlayOk = some d ∧
    create_segment_video d (d + 1) BuildOutcome.overlayFailsFallbackOk = some d ∧
    (∀ (env : Env) (sign : String) (dur : ℚ),
      processSign env sign = .seg dur → dur = env.audioDuration sign) := by
  refine ⟨?_, rfl, processSign_seg_duration⟩
  simp only [create_segment_video, Option.some.injEq]
  rw [if_neg (by linarith : ¬ d > d + 1)]

/-- Claim C1, witness: in the concrete two-segment run, the segment built
for "aries" has duration 10, the measured audio duration. -/
theorem horoscope_C1_witness :
    processSign envFallback "aries" = StepResult.seg 10 ∧
    (10 : ℚ) = envFallback.audioDuration "aries" :=
  ⟨by decide, (horoscope_C1_amended 10).2.2 envFallback "aries" 10 (by decide)⟩

/-- Claim C2, counterexample: with all credential environment variables
set, the zero-segments abort and the render-failure abort both leave the
temporary credential materializations on disk — the cleanup of lines
372-377 runs only after the upload stage, and the early returns of lines
326 and 346 bypass it. -/
theorem horoscope_C2_cex :
    ((runMain envAllSkip).exitPath = ExitPath.emptyAbort ∧
      (runMain envAllSkip).filesAtExit =
        { serviceAccount := true, clientSecret := true, tokenPickle := true }) ∧
    ((runMain envRenderFail).exitPath = ExitPath.renderFailAbort ∧
      (runMain envRenderFail).filesAtExit =
        { serviceAccount := true, clientSecret := true, tokenPickle := true }) := by
  decide

/-- Claim C2, amended: the temporary credential materializations created
from environment variables are all removed on the normal-completion exit
path; the zero-segments abort and the render-write-failure abort return
before the cleanup code and leave them in place. -/
theorem horoscope_C2_amended (env : Env)
    (h : (runMain env).exitPath = ExitPath.normal) :
    (runMain env).filesAtExit =
      { serviceAccount := false, clientSecret := false, tokenPickle := false } := by
  revert h
  unfold runMain
  cases hrs : runSigns env ZODIAC_SIGNS initState with
  | none =>
      intro h
      simp at h
  | some st =>
      intro h
      dsimp only at h ⊢
      by_cases h1 : st.segments.isEmpty
      · rw [if_pos h1] at h
        simp at h
      · rw [if_neg h1] at h ⊢
        cases h2 : env.renderOk with
        | false => simp [h2] at h
        | true =>
            simp only [Bool.not_true, Bool.false_eq_true, if_false] at h ⊢
            simp only [cleanup_credentials, setup_credentials]
            cases hg : env.googleCreds <;> cases hs : env.ytSecret <;>
              cases ht : env.ytToken <;> cases htd : env.tokenDecodeOk <;> simp

/-- Claim C2, witness: the concrete two-segment run completes normally and
ends with no temporary credential file left on disk. -/
theorem horoscope_C2_witness :
    (runMain envTwoSegs).exitPath = ExitPath.normal ∧
    (runMain envTwoSegs).filesAtExit =
      { serviceAccount := false, clientSecret := false, tokenPickle := false } :=
  ⟨by decide, horoscope_C2_amended envTwoSegs (by decide)⟩

/-- Claim C3, counterexample: when overlay composition fails, the degraded
image+audio segment for audio duration 2 (driver `segment_duration = 2 +
1.0`) has duration 2, not `2 + 1.0`: the fallback of lines 153-158 takes
exactly the audio clip's duration, so the claimed `duration == audio
duration + pad` invariant fails on the degraded path too. -/
theorem horoscope_C3_cex :
    create_segment_video 2 (2 + 1) BuildOutcome.overlayFailsFallbackOk = some 2 ∧
    create_segment_video 2 (2 + 1) BuildOutcome.overlayFailsFallbackOk ≠
      some (2 + 1) := by
  refine ⟨rfl, ?_⟩
  simp only [create_segment_video, ne_eq, Option.some.injEq]
  norm_num

/-- Claim C3, amended: if overlay composition fails (and the fallback
construction itself succeeds), the builder returns an image+audio-only
segment instead of failing the topic, and that degraded segment's duration
equals the audio duration `d` exactly — not `d + 1.0`. -/
theorem horoscope_C3_amended (d sd : ℚ) :
    create_segment_video d sd BuildOutcome.overlayFailsFallbackOk = some d ∧
    create_segment_video d sd BuildOutcome.overlayFailsFallbackOk ≠
      some (d + 1) := by
  refine ⟨rfl, ?_⟩
  simp only [create_segment_video, ne_eq, Option.some.injEq]
  intro h
  linarith

/-- Claim C3, witness: instantiation of the amended claim at audio duration
2 and planned duration 7. -/
theorem horoscope_C3_witness :
    create_segment_video 2 7 BuildOutcome.overlayFailsFallbackOk = some 2 ∧
    create_segment_video 2 7 BuildOutcome.overlayFailsFallbackOk ≠
      some (2 + 1) :=
  horoscope_C3_amended 2 7

/-- Claim C4: in every run (with nonnegative measured audio durations), the
chapter offset recorded for the i-th included segment is the sum of the
durations of included segments 0..i-1 — read before that segment's own
duration is accumulated — hence offsets are non-decreasing and the first
offset is 0. -/
theorem horoscope_C4 (env : Env) (hd : ∀ s, 0 ≤ env.audioDuration s) :
    (∀ i, i < (runMain env).offsets.length →
        (runMain env).offsets.getD i 0 =
          (((runMain env).segments.map Prod.snd).take i).sum) ∧
    (∀ i, i + 1 < (runMain env).offsets.length →
        (runMain env).offsets.getD i 0 ≤ (runMain env).offsets.getD (i + 1) 0) ∧
    (0 < (runMain env).offsets.length → (runMain env).offsets.getD 0 0 = 0) := by
  cases hrs : runSigns env ZODIAC_SIGNS initState with
  | none =>
      have hoff : (runMain env).offsets = [] := by unfold runMain; rw [hrs]
      rw [hoff]
      simp
  | some st =>
      obtain ⟨hseg, -, hoffs, -⟩ := runSigns_spec env ZODIAC_SIGNS initState st hrs
      obtain ⟨f1, -, f3⟩ := runMain_fields env st hrs
      rw [f3, hoffs, f1, hseg]
      simp only [initState, List.nil_append]
      have hnn : ∀ x ∈ (includedOf env ZODIAC_SIGNS).map Prod.snd, 0 ≤ x :=
        includedOf_dur_nonneg env hd _
      refine ⟨?_, ?_, ?_⟩
      · intro i hi
        rw [offsetList_length] at hi
        rw [offsetList_getD _ 0 i hi, zero_add]
      · intro i hi
        rw [offsetList_length] at hi
        have hi' : i < ((includedOf env ZODIAC_SIGNS).map Prod.snd).length := by
          omega
        rw [offsetList_getD _ 0 i hi', offsetList_getD _ 0 (i + 1) hi,
          zero_add, zero_add, List.sum_take_succ _ i hi']
        have h0 : 0 ≤ ((includedOf env ZODIAC_SIGNS).map Prod.snd)[i] :=
          hnn _ (List.getElem_mem hi')
        linarith
      · intro h0
        rw [offsetList_length] at h0
        rw [offsetList_getD _ 0 0 h0]
        simp

/-- Claim C4, witness: in the concrete two-segment run, the first chapter
offset is the empty sum and the first two offsets are non-decreasing. -/
theorem horoscope_C4_witness :
    (runMain envTwoSegs).offsets.getD 0 0 =
      (((runMain envTwoSegs).segments.map Prod.snd).take 0).sum ∧
    (runMain envTwoSegs).offsets.getD 0 0 ≤
      (runMain envTwoSegs).offsets.getD 1 0 := by
  have hd : ∀ s, 0 ≤ envTwoSegs.audioDuration s := by
    intro s
    have h : envTwoSegs.audioDuration s = if s == "aries" then (10 : ℚ) else 8 :=
      rfl
    rw [h]
    split <;> norm_num
  exact ⟨(horoscope_C4 envTwoSegs hd).1 0 (by decide),
    (horoscope_C4 envTwoSegs hd).2.1 0 (by decide)⟩

/-- Claim C5: if every topic is skipped, the run takes the zero-segments
terminal abort (the early return of line 326, the code's realization of the
empty-timeline error) and neither the render/write step nor the upload step
is attempted. -/
theorem horoscope_C5 (env : Env)
    (hskip : ∀ s ∈ ZODIAC_SIGNS, processSign env s = .skip) :
    (runMain env).exitPath = ExitPath.emptyAbort ∧
    (runMain env).segments = [] ∧
    (runMain env).renderAttempted = false ∧
    (runMain env).uploadAttempted = false := by
  have h := runSigns_all_skip env ZODIAC_SIGNS initState hskip
  unfold runMain
  rw [h]
  simp [initState]

/-- Claim C5, witness: the all-fetch-failures run aborts with zero segments
and attempts neither render nor upload. -/
theorem horoscope_C5_witness :
    (runMain envAllSkip).exitPath = ExitPath.emptyAbort ∧
    (runMain envAllSkip).segments = [] ∧
    (runMain envAllSkip).renderAttempted = false ∧
    (runMain envAllSkip).uploadAttempted = false :=
  horoscope_C5 envAllSkip (by decide)

/-- Claim C6: against a mock whose `next_chunk` reports progress any finite
number of times and then completes, the upload loop of lines 236-243
terminates after exactly `#progress-reports + 1` calls and returns the
assigned video id exactly once, regardless of anything the mock would
answer after completion. -/
theorem horoscope_C6 (ps : List ℚ) (videoId : String)
    (rest : List ChunkResult) :
    uploadLoop (ps.map ChunkResult.progress ++ ChunkResult.complete videoId :: rest)
      = some (videoId, ps.length + 1) := by
  induction ps with
  | nil => rfl
  | cons p ps ih => simp [uploadLoop, ih]

/-- Claim C6, witness: a 0-byte-progress-twice-then-complete mock
terminates in three calls with the assigned id. -/
theorem horoscope_C6_witness :
    uploadLoop [ChunkResult.progress 0, ChunkResult.progress 0,
      ChunkResult.complete "vid123"] = some ("vid123", 3) :=
  horoscope_C6 [0, 0] "vid123" []

/-- Claim C7: on every non-crashing run, the segments included in the
timeline are exactly the per-sign successes in the fixed 12-topic list
order (their sign sequence is a sublist of `ZODIAC_SIGNS`), and the number
of chapter lines equals the number of included segments. -/
theorem horoscope_C7 (env : Env)
    (hnc : ∀ s ∈ ZODIAC_SIGNS, processSign env s ≠ .crash) :
    (runMain env).segments = includedOf env ZODIAC_SIGNS ∧
    List.Sublist ((runMain env).segments.map Prod.fst) ZODIAC_SIGNS ∧
    (runMain env).chapters.length = (runMain env).segments.length := by
  obtain ⟨st, hrs⟩ := runSigns_total env ZODIAC_SIGNS initState hnc
  obtain ⟨hseg, hch, -, -⟩ := runSigns_spec env ZODIAC_SIGNS initState st hrs
  obtain ⟨f1, f2, -⟩ := runMain_fields env st hrs
  have hs : (runMain env).segments = includedOf env ZODIAC_SIGNS := by
    rw [f1, hseg]; simp [initState]
  refine ⟨hs, ?_, ?_⟩
  · rw [hs, includedOf_map_fst]
    exact List.filter_sublist _
  · rw [f2, hch, hs]
    simp [initState]

/-- Claim C7, witness: the two-segment run includes exactly the "aries" and
"gemini" segments, in topic order, with matching chapter count. -/
theorem horoscope_C7_witness :
    (runMain envTwoSegs).segments = includedOf envTwoSegs ZODIAC_SIGNS ∧
    (runMain envTwoSegs).chapters.length = (runMain envTwoSegs).segments.length :=
  ⟨(horoscope_C7 envTwoSegs (by decide)).1,
    (horoscope_C7 envTwoSegs (by decide)).2.2⟩

/-- Claim C8: for every nonnegative accumulated offset, the chapter label
is the zero-padded `MM:SS` rendering of the offset truncated (floored, not
rounded) to whole seconds, while the accumulator passed to the next
iteration keeps the full fractional value `t + dur`. -/
theorem horoscope_C8 (t : ℚ) (ht : 0 ≤ t) (sign : String) :
    chapterLabel t sign =
      pad2 (⌊t⌋.toNat / 60) ++ ":" ++ pad2 (⌊t⌋.toNat % 60) ++ " " ++
        capitalize sign ∧
    (∀ (st : LoopState) (s : String) (dur : ℚ),
      (pushSegment st s dur).t = st.t + dur) := by
  constructor
  · have h60 : (0 : ℚ) < 60 := by norm_num
    have h1 : ((⌊t / 60⌋ : ℤ) : ℚ) ≤ t / 60 := Int.floor_le _
    have h2 : t / 60 < ⌊t / 60⌋ + 1 := Int.lt_floor_add_one _
    have h3 : ((⌊t⌋ : ℤ) : ℚ) ≤ t := Int.floor_le t
    have h4 : t < ⌊t⌋ + 1 := Int.lt_floor_add_one t
    have h1' : ((⌊t / 60⌋ : ℤ) : ℚ) * 60 ≤ t := (le_div_iff₀ h60).mp h1
    have h2' : t < (((⌊t / 60⌋ : ℤ) : ℚ) + 1) * 60 := (div_lt_iff₀ h60).mp h2
    have hA : 60 * ⌊t / 60⌋ ≤ ⌊t⌋ := by
      rw [Int.le_floor]
      push_cast
      linarith
    have hB : ⌊t⌋ < 60 * ⌊t / 60⌋ + 60 := by
      have hc : ((⌊t⌋ : ℤ) : ℚ) < ((60 * ⌊t / 60⌋ + 60 : ℤ) : ℚ) := by
        push_cast
        linarith
      exact_mod_cast hc
    have hn : 0 ≤ ⌊t⌋ := by
      rw [Int.le_floor]
      exact_mod_cast ht
    have hsec : ⌊t - 60 * ((⌊t / 60⌋ : ℤ) : ℚ)⌋ = ⌊t⌋ - 60 * ⌊t / 60⌋ := by
      rw [show (60 : ℚ) * ((⌊t / 60⌋ : ℤ) : ℚ) = ((60 * ⌊t / 60⌋ : ℤ) : ℚ) by
        push_cast; ring]
      exact Int.floor_sub_int t _
    have hmin_nat : (⌊t / 60⌋).toNat = ⌊t⌋.toNat / 60 := by omega
    have hsec_nat : (⌊t - 60 * ((⌊t / 60⌋ : ℤ) : ℚ)⌋).toNat = ⌊t⌋.toNat % 60 := by
      rw [hsec]; omega
    unfold chapterLabel
    rw [hmin_nat, hsec_nat]
  · intro st s dur
    rfl

/-- Claim C8, witness: at accumulated offset 13.9 seconds the label reads
"00:13" (truncated, not rounded to "00:14"). -/
theorem horoscope_C8_witness :
    (0 : ℚ) ≤ 139 / 10 ∧ chapterLabel (139 / 10) "aries" = "00:13 Aries" := by
  refine ⟨by norm_num, ?_⟩
  rw [(horoscope_C8 (139 / 10) (by norm_num) "aries").1]
  have hfl : ⌊(139 / 10 : ℚ)⌋ = 13 := by
    rw [Int.floor_eq_iff]
    norm_num
  rw [hfl]
  decide

/-- Claim C9, counterexample: a successful fetch whose JSON payload has no
`description` field makes `fetch_horoscope` raise an uncaught `TypeError`
(line 77 slices `None`), so the fetch operation is not total. -/
theorem horoscope_C9_cex :
    fetch_horoscope "aries" (FetchOutcome.response none) = PyResult.raised :=
  rfl

/-- Claim C9, amended: on any request failure `fetch_horoscope` returns the
fixed apology sentinel, and on a successful response carrying a description
string it returns it verbatim (but a successful response lacking a
description raises, so the operation is not total); the driver's skip
decision is pure substring matching on the returned text, so the apology is
always skipped and so is any successfully fetched description containing a
sentinel phrase. -/
theorem horoscope_C9_amended (sign text : String) :
    fetch_horoscope sign FetchOutcome.requestError =
      PyResult.ok (apologyText sign) ∧
    fetch_horoscope sign (FetchOutcome.response (some text)) =
      PyResult.ok text ∧
    fetchSkip (apologyText sign) = true ∧
    (strIn "couldn't retrieve" text = true → fetchSkip text = true) := by
  refine ⟨rfl, rfl, fetchSkip_apology sign, ?_⟩
  intro h
  simp [fetchSkip, h]

/-- Claim C9, witness: a genuinely fetched description that happens to
contain the sentinel phrase is skipped, as is the apology text itself. -/
theorem horoscope_C9_witness :
    fetchSkip "sadly we couldn't retrieve the stars today" = true ∧
    fetchSkip (apologyText "aries") = true :=
  ⟨(horoscope_C9_amended "aries" "sadly we couldn't retrieve the stars today").2.2.2
      (by decide),
    (horoscope_C9_amended "aries" "x").2.2.1⟩

/-- Claim C10: under the driver's calling convention
`segment_duration = d + 1.0`, the audio-truncation branch of line 135 is
unreachable (its guard `d > d + 1` is false), and passing any other
`segment_duration` at least `d` yields the identical result — the planned
duration has no effect on the returned segment. -/
theorem horoscope_C10 (d sd : ℚ) (hsd : d ≤ sd) (o : BuildOutcome) :
    ¬ d > d + 1 ∧
    create_segment_video d sd o = create_segment_video d (d + 1) o := by
  refine ⟨by linarith, ?_⟩
  cases o with
  | overlayOk =>
      simp only [create_segment_video]
      rw [if_neg (not_lt.mpr hsd), if_neg (by linarith : ¬ d > d + 1)]
  | overlayFailsFallbackOk => rfl
  | bothFail => rfl

/-- Claim C10, witness: instantiation at audio duration 2 with planned
durations 5 and `2 + 1`. -/
theorem horoscope_C10_witness :
    (2 : ℚ) ≤ 5 ∧
    (¬ (2 : ℚ) > 2 + 1 ∧
      create_segment_video 2 5 BuildOutcome.overlayOk =
        create_segment_video 2 (2 + 1) BuildOutcome.overlayOk) :=
  ⟨by norm_num, horoscope_C10 2 5 (by norm_num) BuildOutcome.overlayOk⟩

end HoroscopeBot
